import Mathlib

/-!
Verification of the gbmonitor HID request encoder (src/monitor.py).

The embedding mirrors the source: `MonitorProperty` is the dataclass,
`Monitor._build_request` builds the integer buffer and converts it with
`pyBytes`, which models Python's `bytes(...)` constructor (it fails on any
element outside `[0, 255]`, as `bytes` raises `ValueError` there).
`ranged_int` models the argparse value validator, and `process_argument`
models the per-option path of `main`: validation runs before any encoding
or device write.
-/

namespace Gbmonitor

/-- The `MonitorProperty` dataclass: `value` is the vendor id code,
`range` the inclusive `(min, max)` bounds. -/
structure MonitorProperty where
  name : String
  value : Nat
  range : Int × Int
  abbr : Option String := none
  description : String := ""
  deriving Repr, DecidableEq

/-- Models Python's `bytes(buffer)`: succeeds with the byte list exactly when
every element lies in `[0, 255]`, otherwise fails (`ValueError`). -/
def pyBytes (l : List Int) : Option (List Nat) :=
  if ∀ x ∈ l, 0 ≤ x ∧ x < 256 then some (l.map Int.toNat) else none

namespace Monitor

def VID : Nat := 0x0BDA

def PID : Nat := 0x1100

def brightness : MonitorProperty :=
  { name := "brightness", abbr := some "b", range := (0, 100), value := 0x10 }

def contrast : MonitorProperty :=
  { name := "contrast", abbr := some "c", range := (0, 100), value := 0x12 }

def sharpness : MonitorProperty :=
  { name := "sharpness", abbr := some "s", range := (0, 10), value := 0x87 }

def low_blue_light : MonitorProperty :=
  { name := "low-blue-light", abbr := some "lb", range := (0, 10), value := 0xE00B,
    description := "Blue light reduction. 0 means no reduction." }

def kvm_switch : MonitorProperty :=
  { name := "kvm-switch", abbr := some "kvm", range := (0, 1), value := 0xE069,
    description := "Switch KVM to device 0 or 1" }

def color_mode : MonitorProperty :=
  { name := "color-mode", abbr := some "cm", range := (0, 3), value := 0xE003,
    description := "0 is cool, 1 is normal, 2 is warm, 3 is user-defined." }

def rgb_red : MonitorProperty :=
  { name := "rgb-red", range := (0, 100), value := 0xE004,
    description := "Red value -- only works if colour-mode is set to 3" }

def rgb_green : MonitorProperty :=
  { name := "rgb-green", range := (0, 100), value := 0xE005,
    description := "Green value -- only works if colour-mode is set to 3" }

def rgb_blue : MonitorProperty :=
  { name := "rgb-blue", range := (0, 100), value := 0xE006,
    description := "Blue value -- only works if colour-mode is set to 3" }

/-- The `configurable_properties` dictionary, as the ordered association list
of its entries. -/
def configurable_properties : List (String × MonitorProperty) :=
  [ ("brightness", brightness),
    ("contrast", contrast),
    ("sharpness", sharpness),
    ("low_blue_light", low_blue_light),
    ("kvm_switch", kvm_switch),
    ("color_mode", color_mode),
    ("rgb_red", rgb_red),
    ("rgb_green", rgb_green),
    ("rgb_blue", rgb_blue) ]

/-- The integer buffer assembled by `Monitor._build_request` before the final
`bytes(buffer)` conversion.  On the nonnegative id code, Python's `&` and `>>`
are `Nat` bitwise-and `&&&` and right shift `>>>`, and `[0x00] * n` for
negative `n` is the empty list, matching truncated `Nat` subtraction. -/
def build_request_buffer (monitor_property : MonitorProperty) (property_value : Int) :
    List Int :=
  let request_size : Nat := 192 + 1
  let header_size : Nat := 0x40 + 1
  let buffer : List Int := [0x00]
  let buffer := buffer ++ [0x40, 0xC6]
  let buffer := buffer ++ List.replicate 4 0x00
  let buffer := buffer ++ [0x20, 0x00, 0x6E, 0x00, 0x80]
  let msg : List Int :=
    if monitor_property.value > 0xFF then [((monitor_property.value >>> 8 : Nat) : Int)]
    else []
  let msg := msg ++ [((monitor_property.value &&& 0xFF : Nat) : Int), 0x00, property_value]
  let preamble : List Int := [0x51, ((0x81 + msg.length : Nat) : Int), 0x03]
  let buffer := buffer ++ List.replicate (header_size - buffer.length) 0x00
  let buffer := buffer ++ preamble
  let buffer := buffer ++ msg
  let buffer := buffer ++ List.replicate (request_size - buffer.length) 0x00
  buffer

/-- `Monitor._build_request`: the buffer followed by the `bytes(buffer)`
conversion (returning the request bytes, or failing as `bytes` would). -/
def build_request (monitor_property : MonitorProperty) (property_value : Int) :
    Option (List Nat) :=
  pyBytes (build_request_buffer monitor_property property_value)

end Monitor

/-- The validator produced by `ranged_int(min, max)`, applied to the integer
already parsed from the argument string: out-of-bounds values raise
`argparse.ArgumentTypeError`. -/
def ranged_int (mn mx : Int) (x : Int) : Except String Int :=
  if x < mn ∨ x > mx then
    Except.error ("must be within range [" ++ toString mn ++ ", " ++ toString mx ++ "]")
  else Except.ok x

/-- One property-set attempt as `main` drives it: argparse applies the
`ranged_int` validator built from the property's range before
`Monitor.set_property` can run, so a validation failure yields an error with
no request built and nothing written; on success the encoded request bytes
destined for the device write are returned. -/
def process_argument (p : MonitorProperty) (x : Int) : Except String (List Nat) :=
  match ranged_int p.range.1 p.range.2 x with
  | Except.error e => Except.error e
  | Except.ok v =>
    match Monitor.build_request p v with
    | some r => Except.ok r
    | none => Except.error "bytes must be in range(0, 256)"

set_option maxRecDepth 4000

/-- The fixed 65-byte header region of every request, as signed integers. -/
def header65I : List Int :=
  [0x00, 0x40, 0xC6, 0x00, 0x00, 0x00, 0x00, 0x20, 0x00, 0x6E, 0x00, 0x80] ++
    List.replicate 53 0x00

/-- The fixed 65-byte header region of every request, as bytes. -/
def header65 : List Nat :=
  [0x00, 0x40, 0xC6, 0x00, 0x00, 0x00, 0x00, 0x20, 0x00, 0x6E, 0x00, 0x80] ++
    List.replicate 53 0x00

lemma land_ff_eq_mod (x : Nat) : x &&& 0xFF = x % 0x100 := by
  have h := Nat.and_pow_two_sub_one_eq_mod x 8
  norm_num at h
  exact h

lemma buffer_short (p : MonitorProperty) (v : Int) (hid : p.value ≤ 0xFF) :
    Monitor.build_request_buffer p v =
      header65I ++ [0x51, 0x84, 0x03, (p.value : Int), 0x00, v] ++
        List.replicate 122 (0x00 : Int) := by
  simp only [Monitor.build_request_buffer, header65I]
  rw [if_neg (by omega), land_ff_eq_mod]
  rw [Nat.mod_eq_of_lt (by omega : p.value < 0x100)]
  simp [List.append_assoc]

lemma buffer_long (p : MonitorProperty) (v : Int) (hid : 0xFF < p.value) :
    Monitor.build_request_buffer p v =
      header65I ++ ([0x51, 0x85, 0x03, ((p.value >>> 8 : Nat) : Int),
        ((p.value % 0x100 : Nat) : Int), 0x00, v] : List Int) ++
        List.replicate 121 (0x00 : Int) := by
  simp only [Monitor.build_request_buffer, header65I]
  rw [if_pos (by omega), land_ff_eq_mod]
  simp [List.append_assoc]

lemma map_toNat_header65I : List.map Int.toNat header65I = header65 := by decide

lemma build_request_short (p : MonitorProperty) (v : Nat) (hid : p.value ≤ 0xFF)
    (hv : v ≤ 255) :
    Monitor.build_request p (v : Int) =
      some (header65 ++ [0x51, 0x84, 0x03, p.value, 0x00, v] ++
        List.replicate 122 0x00) := by
  rw [Monitor.build_request, buffer_short p v hid, pyBytes, if_pos]
  · rw [Option.some.injEq]
    simp only [List.map_append, List.map_cons, List.map_nil, List.map_replicate,
      map_toNat_header65I, Int.toNat_natCast]
    norm_num
    omega
  · rw [List.forall_mem_append, List.forall_mem_append]
    refine ⟨⟨by decide, ?_⟩, ?_⟩
    · intro x hx
      simp only [List.mem_cons, List.not_mem_nil, or_false] at hx
      rcases hx with h | h | h | h | h | h <;> omega
    · intro x hx
      rw [List.mem_replicate] at hx
      omega

lemma build_request_long (p : MonitorProperty) (v : Nat) (hid : 0xFF < p.value)
    (hid2 : p.value ≤ 0xFFFF) (hv : v ≤ 255) :
    Monitor.build_request p (v : Int) =
      some (header65 ++ [0x51, 0x85, 0x03, p.value >>> 8, p.value % 0x100, 0x00, v] ++
        List.replicate 121 0x00) := by
  rw [Monitor.build_request, buffer_long p v hid, pyBytes, if_pos]
  · rw [Option.some.injEq]
    simp only [List.map_append, List.map_cons, List.map_nil, List.map_replicate,
      map_toNat_header65I, Int.toNat_natCast]
    norm_num
    omega
  · rw [List.forall_mem_append, List.forall_mem_append]
    have hs : p.value >>> 8 = p.value / 256 := Nat.shiftRight_eq_div_pow p.value 8
    have hm : p.value % 0x100 < 256 := Nat.mod_lt _ (by omega)
    refine ⟨⟨by decide, ?_⟩, ?_⟩
    · intro x hx
      simp only [List.mem_cons, List.not_mem_nil, or_false] at hx
      rcases hx with h | h | h | h | h | h | h <;> constructor <;> omega
    · intro x hx
      rw [List.mem_replicate] at hx
      omega

/-- Encoding succeeds with a full 193-byte report whenever the id code fits two
bytes and the value fits one byte. -/
lemma build_request_ok (p : MonitorProperty) (x : Int) (hid : p.value ≤ 0xFFFF)
    (h0 : 0 ≤ x) (h255 : x ≤ 255) :
    ∃ r, Monitor.build_request p x = some r ∧ r.length = 193 := by
  obtain ⟨v, rfl⟩ : ∃ v : Nat, x = (v : Int) := ⟨x.toNat, (Int.toNat_of_nonneg h0).symm⟩
  have hv : v ≤ 255 := by exact_mod_cast h255
  by_cases h : p.value ≤ 0xFF
  · exact ⟨_, build_request_short p v h hv, rfl⟩
  · exact ⟨_, build_request_long p v (by omega) hid hv, rfl⟩

/-- The `bytes(buffer)` conversion fails as soon as one element is not a byte. -/
lemma pyBytes_none {l : List Int} (x : Int) (hx : x ∈ l) (hbad : ¬(0 ≤ x ∧ x < 256)) :
    pyBytes l = none := by
  rw [pyBytes, if_neg]
  intro hall
  exact hbad (hall x hx)

/-- The requested value itself is always an element of the assembled buffer. -/
lemma value_mem_buffer (p : MonitorProperty) (x : Int) :
    x ∈ Monitor.build_request_buffer p x := by
  by_cases h : p.value ≤ 0xFF
  · rw [buffer_short p x h]
    simp
  · rw [buffer_long p x (by omega)]
    simp

/-- C1: for every descriptor whose id code is at most 0xFF and every value in
[0, 255], the encoded request is a 193-byte sequence whose preamble at offsets
65-67 is [0x51, 0x84, 0x03], whose message at offsets 68-70 is
[id_code, 0x00, value], and whose bytes from offset 71 through 192 are all
0x00; moreover encode(brightness, 0) has message [0x10, 0x00, 0x00] and
encode(brightness, 100) has message [0x10, 0x00, 0x64]. -/
theorem C1_short_id_encoding (p : MonitorProperty) (v : Nat)
    (hid : p.value ≤ 0xFF) (hv : v ≤ 255) :
    (∃ r, Monitor.build_request p (v : Int) = some r ∧ r.length = 193 ∧
      (r.drop 65).take 3 = [0x51, 0x84, 0x03] ∧
      (r.drop 68).take 3 = [p.value, 0x00, v] ∧
      r.drop 71 = List.replicate 122 0x00) ∧
    (Monitor.build_request Monitor.brightness 0).map
        (fun r => ((r.drop 65).take 3, (r.drop 68).take 3)) =
      some ([0x51, 0x84, 0x03], [0x10, 0x00, 0x00]) ∧
    (Monitor.build_request Monitor.brightness 100).map
        (fun r => ((r.drop 65).take 3, (r.drop 68).take 3)) =
      some ([0x51, 0x84, 0x03], [0x10, 0x00, 0x64]) := by
  refine ⟨⟨_, build_request_short p v hid hv, rfl, rfl, rfl, rfl⟩, by decide, by decide⟩

/-- Witness for C1 at the brightness descriptor with value 100. -/
theorem C1_short_id_encoding_witness :
    Monitor.brightness.value ≤ 0xFF ∧ (100 : Nat) ≤ 255 ∧
    ((∃ r, Monitor.build_request Monitor.brightness ((100 : Nat) : Int) = some r ∧
      r.length = 193 ∧
      (r.drop 65).take 3 = [0x51, 0x84, 0x03] ∧
      (r.drop 68).take 3 = [Monitor.brightness.value, 0x00, 100] ∧
      r.drop 71 = List.replicate 122 0x00) ∧
    (Monitor.build_request Monitor.brightness 0).map
        (fun r => ((r.drop 65).take 3, (r.drop 68).take 3)) =
      some ([0x51, 0x84, 0x03], [0x10, 0x00, 0x00]) ∧
    (Monitor.build_request Monitor.brightness 100).map
        (fun r => ((r.drop 65).take 3, (r.drop 68).take 3)) =
      some ([0x51, 0x84, 0x03], [0x10, 0x00, 0x64])) :=
  ⟨by decide, by decide,
    C1_short_id_encoding Monitor.brightness 100 (by decide) (by decide)⟩

/-- C2: for every descriptor whose id code is above 0xFF (and within two bytes,
per the data model) and every value in [0, 255], the encoded request is a
193-byte sequence whose preamble at offsets 65-67 is [0x51, 0x85, 0x03], whose
4-byte message at offsets 68-71 is [id_code >>> 8, id_code &&& 0xFF, 0x00,
value], and whose bytes from offset 72 through 192 are all 0x00; moreover
encode(low_blue_light, 5) has message [0xE0, 0x0B, 0x00, 0x05]. -/
theorem C2_long_id_encoding (p : MonitorProperty) (v : Nat)
    (hid : 0xFF < p.value) (hid2 : p.value ≤ 0xFFFF) (hv : v ≤ 255) :
    (∃ r, Monitor.build_request p (v : Int) = some r ∧ r.length = 193 ∧
      (r.drop 65).take 3 = [0x51, 0x85, 0x03] ∧
      (r.drop 68).take 4 = [p.value >>> 8, p.value &&& 0xFF, 0x00, v] ∧
      r.drop 72 = List.replicate 121 0x00) ∧
    (Monitor.build_request Monitor.low_blue_light 5).map
        (fun r => ((r.drop 65).take 3, (r.drop 68).take 4)) =
      some ([0x51, 0x85, 0x03], [0xE0, 0x0B, 0x00, 0x05]) := by
  rw [land_ff_eq_mod]
  refine ⟨⟨_, build_request_long p v hid hid2 hv, rfl, rfl, rfl, rfl⟩, by decide⟩

/-- Witness for C2 at the low-blue-light descriptor with value 5. -/
theorem C2_long_id_encoding_witness :
    0xFF < Monitor.low_blue_light.value ∧ Monitor.low_blue_light.value ≤ 0xFFFF ∧
    (5 : Nat) ≤ 255 ∧
    ((∃ r, Monitor.build_request Monitor.low_blue_light ((5 : Nat) : Int) = some r ∧
      r.length = 193 ∧
      (r.drop 65).take 3 = [0x51, 0x85, 0x03] ∧
      (r.drop 68).take 4 = [Monitor.low_blue_light.value >>> 8,
        Monitor.low_blue_light.value &&& 0xFF, 0x00, 5] ∧
      r.drop 72 = List.replicate 121 0x00) ∧
    (Monitor.build_request Monitor.low_blue_light 5).map
        (fun r => ((r.drop 65).take 3, (r.drop 68).take 4)) =
      some ([0x51, 0x85, 0x03], [0xE0, 0x0B, 0x00, 0x05])) :=
  ⟨by decide, by decide, by decide,
    C2_long_id_encoding Monitor.low_blue_light 5 (by decide) (by decide) (by decide)⟩

/-- C3: for every descriptor in the catalog and every value in [0, 255], the
encoded request has length exactly 193. -/
theorem C3_length (nm : String) (p : MonitorProperty)
    (hmem : (nm, p) ∈ Monitor.configurable_properties) (v : Nat) (hv : v ≤ 255) :
    ∃ r, Monitor.build_request p (v : Int) = some r ∧ r.length = 193 := by
  have hp : p.value ≤ 0xFFFF := by
    fin_cases hmem <;> decide
  exact build_request_ok p (v : Int) hp (by positivity) (by exact_mod_cast hv)

/-- Witness for C3 at the contrast catalog entry with value 255. -/
theorem C3_length_witness :
    ("contrast", Monitor.contrast) ∈ Monitor.configurable_properties ∧
    (255 : Nat) ≤ 255 ∧
    ∃ r, Monitor.build_request Monitor.contrast ((255 : Nat) : Int) = some r ∧
      r.length = 193 :=
  ⟨by decide, by decide, C3_length "contrast" Monitor.contrast (by decide) 255 (by decide)⟩

/-- C4: for every descriptor (id code within two bytes) and every value in
[0, 255], the fixed header region is byte-exact: byte 0 is 0x00, bytes 1-2 are
[0x40, 0xC6], bytes 3-6 are zero, bytes 7-11 are [0x20, 0x00, 0x6E, 0x00,
0x80], and bytes 12 through 64 are all zero, a 65-byte header region. -/
theorem C4_header (p : MonitorProperty) (v : Nat) (hid : p.value ≤ 0xFFFF)
    (hv : v ≤ 255) :
    ∃ r, Monitor.build_request p (v : Int) = some r ∧
      r.take 1 = [0x00] ∧
      (r.drop 1).take 2 = [0x40, 0xC6] ∧
      (r.drop 3).take 4 = [0x00, 0x00, 0x00, 0x00] ∧
      (r.drop 7).take 5 = [0x20, 0x00, 0x6E, 0x00, 0x80] ∧
      (r.drop 12).take 53 = List.replicate 53 0x00 ∧
      r.take 65 = header65 := by
  by_cases h : p.value ≤ 0xFF
  · exact ⟨_, build_request_short p v h hv, rfl, rfl, rfl, rfl, rfl, rfl⟩
  · exact ⟨_, build_request_long p v (by omega) hid hv, rfl, rfl, rfl, rfl, rfl, rfl⟩

/-- Witness for C4 at the kvm-switch descriptor with value 1. -/
theorem C4_header_witness :
    Monitor.kvm_switch.value ≤ 0xFFFF ∧ (1 : Nat) ≤ 255 ∧
    ∃ r, Monitor.build_request Monitor.kvm_switch ((1 : Nat) : Int) = some r ∧
      r.take 1 = [0x00] ∧
      (r.drop 1).take 2 = [0x40, 0xC6] ∧
      (r.drop 3).take 4 = [0x00, 0x00, 0x00, 0x00] ∧
      (r.drop 7).take 5 = [0x20, 0x00, 0x6E, 0x00, 0x80] ∧
      (r.drop 12).take 53 = List.replicate 53 0x00 ∧
      r.take 65 = header65 :=
  ⟨by decide, by decide, C4_header Monitor.kvm_switch 1 (by decide) (by decide)⟩

/-- C5: the catalog has exactly nine properties, whose (name, id code, range)
triples match the spec table. -/
theorem C5_catalog :
    Monitor.configurable_properties.length = 9 ∧
    Monitor.configurable_properties.map (fun kv => (kv.2.name, kv.2.value, kv.2.range)) =
      [("brightness", 0x10, (0, 100)), ("contrast", 0x12, (0, 100)),
       ("sharpness", 0x87, (0, 10)), ("low-blue-light", 0xE00B, (0, 10)),
       ("kvm-switch", 0xE069, (0, 1)), ("color-mode", 0xE003, (0, 3)),
       ("rgb-red", 0xE004, (0, 100)), ("rgb-green", 0xE005, (0, 100)),
       ("rgb-blue", 0xE006, (0, 100))] := ⟨rfl, rfl⟩

/-- C6: a requested value outside a property's inclusive range is rejected by
the argparse validator with a range error, so no request is encoded and
nothing is written; in particular kvm-switch = 2 is rejected. -/
theorem C6_validation (p : MonitorProperty) (x : Int)
    (hx : x < p.range.1 ∨ x > p.range.2) :
    (process_argument p x =
      Except.error ("must be within range [" ++ toString p.range.1 ++ ", " ++
        toString p.range.2 ++ "]") ∧
      ∀ r, process_argument p x ≠ Except.ok r) ∧
    process_argument Monitor.kvm_switch 2 = Except.error "must be within range [0, 1]" := by
  refine ⟨⟨?_, ?_⟩, by rfl⟩
  · simp only [process_argument, ranged_int, if_pos hx]
  · intro r
    simp only [process_argument, ranged_int, if_pos hx]
    exact fun h => Except.noConfusion h

/-- Witness for C6 at the kvm-switch descriptor with the out-of-range value 2. -/
theorem C6_validation_witness :
    ((2 : Int) < Monitor.kvm_switch.range.1 ∨ (2 : Int) > Monitor.kvm_switch.range.2) ∧
    ((process_argument Monitor.kvm_switch 2 =
      Except.error ("must be within range [" ++ toString Monitor.kvm_switch.range.1 ++
        ", " ++ toString Monitor.kvm_switch.range.2 ++ "]") ∧
      ∀ r, process_argument Monitor.kvm_switch 2 ≠ Except.ok r) ∧
    process_argument Monitor.kvm_switch 2 = Except.error "must be within range [0, 1]") :=
  ⟨by decide, C6_validation Monitor.kvm_switch 2 (by decide)⟩

/-- C7 counterexample: the encoder is not total over all integers: at value 300
(or -1) the final bytes conversion fails, so no byte sequence is returned at
all, rather than a silently truncated one. -/
theorem C7_counterexample :
    Monitor.build_request Monitor.brightness 300 = none ∧
    Monitor.build_request Monitor.brightness (-1) = none := by decide

/-- C7 amended: for values in [0, 255] the encoder always returns a 193-byte
sequence, and for any integer value outside one byte it returns no byte
sequence (the bytes conversion raises), never a truncated message. -/
theorem C7_totality_boundary (p : MonitorProperty) (x : Int) (hid : p.value ≤ 0xFFFF) :
    (0 ≤ x ∧ x ≤ 255 → ∃ r, Monitor.build_request p x = some r ∧ r.length = 193) ∧
    ((x < 0 ∨ 255 < x) → Monitor.build_request p x = none) := by
  constructor
  · intro ⟨h0, h255⟩
    exact build_request_ok p x hid h0 h255
  · intro hbad
    exact pyBytes_none x (value_mem_buffer p x) (by omega)

/-- Witness for the amended C7 at the brightness descriptor with value 300. -/
theorem C7_totality_boundary_witness :
    Monitor.brightness.value ≤ 0xFFFF ∧
    ((0 ≤ (300 : Int) ∧ (300 : Int) ≤ 255 →
      ∃ r, Monitor.build_request Monitor.brightness 300 = some r ∧ r.length = 193) ∧
    (((300 : Int) < 0 ∨ (255 : Int) < 300) →
      Monitor.build_request Monitor.brightness 300 = none)) :=
  ⟨by decide, C7_totality_boundary Monitor.brightness 300 (by decide)⟩

/-- C8: every catalog property has 0 ≤ min ≤ max ≤ 255 and a two-byte id code
whose derived message bytes each fit one byte, so encoding succeeds (with the
full 193 bytes) for every value that passes range validation. -/
theorem C8_catalog_invariant :
    (∀ kv ∈ Monitor.configurable_properties,
      (0 : Int) ≤ kv.2.range.1 ∧ kv.2.range.1 ≤ kv.2.range.2 ∧ kv.2.range.2 ≤ 255 ∧
        kv.2.value ≤ 0xFFFF ∧ kv.2.value >>> 8 ≤ 0xFF ∧ kv.2.value &&& 0xFF ≤ 0xFF) ∧
    (∀ kv ∈ Monitor.configurable_properties, ∀ x : Int,
      kv.2.range.1 ≤ x → x ≤ kv.2.range.2 →
      ∃ r, Monitor.build_request kv.2 x = some r ∧ r.length = 193) := by
  have htab : ∀ kv ∈ Monitor.configurable_properties,
      (0 : Int) ≤ kv.2.range.1 ∧ kv.2.range.1 ≤ kv.2.range.2 ∧ kv.2.range.2 ≤ 255 ∧
        kv.2.value ≤ 0xFFFF ∧ kv.2.value >>> 8 ≤ 0xFF ∧ kv.2.value &&& 0xFF ≤ 0xFF := by
    decide
  refine ⟨htab, fun kv hkv x hlo hhi => ?_⟩
  obtain ⟨h0, hmm, h255, hid, -, -⟩ := htab kv hkv
  exact build_request_ok kv.2 x hid (le_trans h0 hlo) (le_trans hhi h255)

/-- Witness for C8 at the brightness catalog entry with validated value 50. -/
theorem C8_catalog_invariant_witness :
    ("brightness", Monitor.brightness) ∈ Monitor.configurable_properties ∧
    Monitor.brightness.range.1 ≤ (50 : Int) ∧ (50 : Int) ≤ Monitor.brightness.range.2 ∧
    ∃ r, Monitor.build_request Monitor.brightness 50 = some r ∧ r.length = 193 :=
  ⟨by decide, by decide, by decide,
    C8_catalog_invariant.2 ("brightness", Monitor.brightness) (by decide) 50
      (by decide) (by decide)⟩

/-- C9: two descriptors agreeing on id code but differing arbitrarily in name,
alias, description, or range encode byte-identically: the encoding depends
only on the id code and the value. -/
theorem C9_noninterference (p q : MonitorProperty) (h : p.value = q.value) (v : Int) :
    Monitor.build_request p v = Monitor.build_request q v := by
  simp only [Monitor.build_request, Monitor.build_request_buffer, h]

/-- Witness for C9: brightness against a renamed variant with the same id code. -/
theorem C9_noninterference_witness :
    Monitor.brightness.value =
      (MonitorProperty.mk "renamed" 0x10 (0, 50) none "other").value ∧
    Monitor.build_request Monitor.brightness 7 =
      Monitor.build_request (MonitorProperty.mk "renamed" 0x10 (0, 50) none "other") 7 :=
  ⟨rfl, C9_noninterference Monitor.brightness
    (MonitorProperty.mk "renamed" 0x10 (0, 50) none "other") rfl 7⟩

/-- C10: encoding is deterministic: two calls on the same (descriptor, value)
pair yield byte-identical output, the encoder being a pure function of its
arguments. -/
theorem C10_determinism (p p' : MonitorProperty) (v v' : Int)
    (hp : p = p') (hv : v = v') :
    Monitor.build_request p v = Monitor.build_request p' v' := by
  rw [hp, hv]

/-- Witness for C10: two calls at (brightness, 5). -/
theorem C10_determinism_witness :
    Monitor.brightness = Monitor.brightness ∧ (5 : Int) = (5 : Int) ∧
    Monitor.build_request Monitor.brightness 5 = Monitor.build_request Monitor.brightness 5 :=
  ⟨rfl, rfl, C10_determinism Monitor.brightness Monitor.brightness 5 5 rfl rfl⟩

end Gbmonitor
